import Mathlib

/-!
Shallow embedding of the teleups UPS monitor (src/ups_monitor.py,
src/utils/telegram_notifier.py, src/utils/wol.py, src/utils/common.py).

The NUT client (src/utils/nut.py) is an external collaborator: each tick's
fresh readings are modelled as a `NutSample` record supplying the values the
four query methods would return during that tick.  The Telegram transport is
modelled by a `TransportOutcome` describing whether the single
`requests.post` + `raise_for_status` delivery attempt succeeds or raises a
`requests.exceptions.RequestException`.  Observable side effects
(notification attempts, wake-on-LAN broadcasts) are collected as `Event`
lists; Python exceptions propagating to a caller are modelled with
`Except String`.
-/

namespace TeleUPS

/-- Fresh readings from the NUT client during one tick (external collaborator:
`is_ups_on_battery`, `is_ups_battery_low`, `get_battery_charge_percentage`,
`get_battery_charge_low_percentage`, `get_ups_status`,
`get_current_power_draw`). -/
structure NutSample where
  onBattery : Bool
  lowBattery : Bool
  batteryPerc : Int
  lowThreshold : Int
  statusText : String
  powerDraw : Int
deriving DecidableEq

/-- The monitor's held state (`self.last_ups_on_battery_status`,
`self.last_ups_low_battery_status` in `UPSMonitor.__init__`). -/
structure MonitorState where
  last_ups_on_battery_status : Bool
  last_ups_low_battery_status : Bool
deriving DecidableEq

/-- Outcome of the single Telegram delivery attempt
(`requests.post` followed by `response.raise_for_status()`). -/
inductive TransportOutcome where
  | delivered
  | requestError (e : String)
deriving DecidableEq

/-- Observable external actions performed by the monitor. -/
inductive Event where
  | notificationAttempt (title msg : String) (delivered : Bool)
  | wolBroadcast (macs : List String)
deriving DecidableEq

/-- `utils.common.get_ups_status_message`. -/
def get_ups_status_message (sample : NutSample) (title : String) :
    String × String :=
  let title := title ++ "\n" ++ "UPS Status Information"
  let msg := "Battery Percentage: <b>" ++ toString sample.batteryPerc ++ "%</b>\n"
  let msg := msg ++ "Status: <b>" ++ sample.statusText ++ "</b>\n"
  let msg := msg ++ "Low Battery: <b>" ++
    (if sample.lowBattery then "Yes" else "No") ++ "</b>\n"
  let msg := msg ++ "Power: <b>" ++ toString sample.powerDraw ++ " watt</b>"
  (title, msg)

/-- `TelegramNotifier.get_full_html_message`. -/
def get_full_html_message (msg_title msg : String) : String :=
  let post_msg := "Your faithful employee,\nTeleUPS"
  "<b>" ++ msg_title ++ "</b>\n\n" ++ msg ++ "\n\n<b>" ++ post_msg ++ "</b>"

/-- Result of one `TelegramNotifier.send_notification` call: how many
delivery attempts were made, whether the attempt was delivered, the payload
text posted, and the log lines produced. -/
structure SendEffect where
  attempts : Nat
  delivered : Bool
  payload : String
  logs : List String
deriving DecidableEq

/-- The body of the `try` block of `TelegramNotifier.send_notification`:
`requests.post(url, data=payload)` followed by
`response.raise_for_status()`; raises (returns `Except.error`) exactly when
the transport fails. -/
def postAndRaiseForStatus : TransportOutcome → Except String Unit
  | TransportOutcome.delivered => Except.ok ()
  | TransportOutcome.requestError e => Except.error e

/-- `TelegramNotifier.send_notification`: builds the full HTML message,
makes one delivery attempt, and catches `requests.exceptions.RequestException`
(logging instead of re-raising).  The codomain keeps the `Except` channel so
that "never propagates an exception to the caller" is a provable statement
rather than a typing artifact. -/
def TelegramNotifier.send_notification (msg_title msg : String)
    (outcome : TransportOutcome) : Except String SendEffect :=
  let full_msg := get_full_html_message msg_title msg
  match postAndRaiseForStatus outcome with
  | Except.ok _ =>
      Except.ok ⟨1, true, full_msg,
        ["Telegram notification has been sent successfully"]⟩
  | Except.error e =>
      Except.ok ⟨1, false, full_msg,
        ["Failed to send Telegram notification: " ++ e]⟩

/-- `WakeOnLAN.send_wol_magic_packet` (src/utils/wol.py): returns whether a
broadcast was sent, together with the list of broadcast operations performed
(each entry is one `send_magic_packet(*macs)` call addressed to all
targets).  `none` models `wol_mac_list = None`. -/
def WakeOnLAN.send_wol_magic_packet (wol_mac_list : Option (List String)) :
    Bool × List (List String) :=
  match wol_mac_list with
  | none => (false, [])
  | some l => if l.isEmpty then (false, []) else (true, [l])

/-- `self.wol = WakeOnLAN(wol_mac_list) if wol_mac_list else None` in
`UPSMonitor.__init__`: the held wake client, present exactly when the
configured MAC list is truthy. -/
def UPSMonitor.mk_wol : Option (List String) → Option (List String)
  | none => none
  | some l => if l.isEmpty then none else some l

/-- `UPSMonitor.send_wol_magic_packet`: gated wake broadcast.  Returns the
broadcast events performed (empty when gated off). -/
def UPSMonitor.send_wol_magic_packet (wol : Option (List String))
    (sample : NutSample) : List Event :=
  if wol.isNone || sample.onBattery ||
      decide (sample.batteryPerc ≤ sample.lowThreshold) then
    []
  else
    match wol with
    | none => []
    | some macs =>
        (WakeOnLAN.send_wol_magic_packet (some macs)).2.map Event.wolBroadcast

/-- `UPSMonitor.send_ups_status_notification`: renders the status message
and forwards it to the Telegram notifier. -/
def UPSMonitor.send_ups_status_notification (oc : TransportOutcome)
    (sample : NutSample) (title : String) : Except String (List Event) := do
  let tm := get_ups_status_message sample title
  let eff ← TelegramNotifier.send_notification tm.1 tm.2 oc
  Except.ok [Event.notificationAttempt tm.1 tm.2 eff.delivered]

/-- `UPSMonitor.handle_power_outage`: sends the outage notification, reads
the fresh low-battery flag, sends the low-battery notification on its
false→true edge, and unconditionally stores the fresh low-battery flag. -/
def UPSMonitor.handle_power_outage (oc : TransportOutcome)
    (s : MonitorState) (sample : NutSample) :
    Except String (MonitorState × List Event) := do
  let evs1 ← UPSMonitor.send_ups_status_notification oc sample "Power outage!"
  let current_ups_low_battery_status := sample.lowBattery
  let evs2 ←
    if current_ups_low_battery_status && !s.last_ups_low_battery_status then
      UPSMonitor.send_ups_status_notification oc sample "Low battery!"
    else
      Except.ok []
  Except.ok
    ({ s with last_ups_low_battery_status := current_ups_low_battery_status },
      evs1 ++ evs2)

/-- `UPSMonitor.handle_power_restoration`: sends the restoration
notification and then the (gated) wake-on-LAN broadcast. -/
def UPSMonitor.handle_power_restoration (wol : Option (List String))
    (oc : TransportOutcome) (s : MonitorState) (sample : NutSample) :
    Except String (MonitorState × List Event) := do
  let evs1 ← UPSMonitor.send_ups_status_notification oc sample
    "Power restoration!"
  let evs2 := UPSMonitor.send_wol_magic_packet wol sample
  Except.ok (s, evs1 ++ evs2)

/-- `UPSMonitor.check_ups_status`: one tick.  Reads the fresh on-battery
flag, dispatches to the outage/restoration handler on a flip, and
unconditionally stores the fresh flag at the end. -/
def UPSMonitor.check_ups_status (wol : Option (List String))
    (oc : TransportOutcome) (s : MonitorState) (sample : NutSample) :
    Except String (MonitorState × List Event) := do
  let current_ups_on_battery_status := sample.onBattery
  let r ←
    if !s.last_ups_on_battery_status && current_ups_on_battery_status then
      UPSMonitor.handle_power_outage oc s sample
    else if s.last_ups_on_battery_status && !current_ups_on_battery_status then
      UPSMonitor.handle_power_restoration wol oc s sample
    else
      Except.ok (s, [])
  Except.ok
    ({ r.1 with last_ups_on_battery_status := current_ups_on_battery_status },
      r.2)

/-- The two recurring actions `UPSMonitor.monitor_ups` can register. -/
inductive JobAction where
  | checkStatus
  | autoWake
deriving DecidableEq

/-- `schedule.every(n).seconds` vs `schedule.every(n).minutes`. -/
inductive TimeUnit where
  | seconds
  | minutes
deriving DecidableEq

/-- One registered `schedule` job. -/
structure Job where
  every : Int
  unit : TimeUnit
  action : JobAction
deriving DecidableEq

/-- The jobs `UPSMonitor.monitor_ups` registers: the 10-second status check
always, and the auto-wake job only when `auto_wake_interval > 0`. -/
def UPSMonitor.monitor_ups_schedule (auto_wake_interval : Int) : List Job :=
  Job.mk 10 TimeUnit.seconds JobAction.checkStatus ::
    (if auto_wake_interval > 0 then
      [Job.mk auto_wake_interval TimeUnit.minutes JobAction.autoWake]
    else
      [])

/-- What one firing of a registered job does: the status-check job runs
`check_ups_status`; the auto-wake job runs `UPSMonitor.send_wol_magic_packet`
(which neither raises nor touches the monitor state). -/
def runJobAction (wol : Option (List String)) (oc : TransportOutcome)
    (s : MonitorState) (sample : NutSample) :
    JobAction → Except String (MonitorState × List Event)
  | JobAction.checkStatus => UPSMonitor.check_ups_status wol oc s sample
  | JobAction.autoWake =>
      Except.ok (s, UPSMonitor.send_wol_magic_packet wol sample)

/-- Telegram chat types (`telegram.Chat` constants). -/
inductive ChatType where
  | privateChat
  | group
  | supergroup
  | channel
deriving DecidableEq

/-- An inbound message event as seen by `reply_ups_status`:
`update.effective_chat.type`, `update.effective_chat.id`,
`update.effective_message.text`. -/
structure TgUpdate where
  chatType : ChatType
  chatId : Int
  text : String
deriving DecidableEq

/-- `TelegramNotifier.reply_ups_status`: replies (with the rendered status
message) exactly when the chat is a channel with the configured id and the
text is exactly "/ups"; otherwise returns without replying. -/
def TelegramNotifier.reply_ups_status (chat_id : String) (sample : NutSample)
    (u : TgUpdate) : Option String :=
  if u.chatType ≠ ChatType.channel ∨ toString u.chatId ≠ chat_id ∨
      u.text ≠ "/ups" then
    none
  else
    let tm := get_ups_status_message sample ""
    some (get_full_html_message tm.1 tm.2)

/-! ### Observation helpers on the `Except`-valued semantics -/

/-- Whether an `Except` computation returned normally. -/
def exceptOk {α : Type} : Except String α → Bool
  | Except.ok _ => true
  | Except.error _ => false

/-- The monitor state after one tick (the state is unchanged if the tick
were to raise; `tickOk` shows it never does). -/
def tickState (wol : Option (List String)) (oc : TransportOutcome)
    (s : MonitorState) (sample : NutSample) : MonitorState :=
  match UPSMonitor.check_ups_status wol oc s sample with
  | Except.ok r => r.1
  | Except.error _ => s

/-- The events emitted during one tick. -/
def tickEvents (wol : Option (List String)) (oc : TransportOutcome)
    (s : MonitorState) (sample : NutSample) : List Event :=
  match UPSMonitor.check_ups_status wol oc s sample with
  | Except.ok r => r.2
  | Except.error _ => []

/-- Whether one tick returned without raising. -/
def tickOk (wol : Option (List String)) (oc : TransportOutcome)
    (s : MonitorState) (sample : NutSample) : Bool :=
  exceptOk (UPSMonitor.check_ups_status wol oc s sample)

/-- Events of `handle_power_outage` (empty if it were to raise). -/
def outageEvents (oc : TransportOutcome) (s : MonitorState)
    (sample : NutSample) : List Event :=
  match UPSMonitor.handle_power_outage oc s sample with
  | Except.ok r => r.2
  | Except.error _ => []

/-- Events of `handle_power_restoration` (empty if it were to raise). -/
def restorationEvents (wol : Option (List String)) (oc : TransportOutcome)
    (s : MonitorState) (sample : NutSample) : List Event :=
  match UPSMonitor.handle_power_restoration wol oc s sample with
  | Except.ok r => r.2
  | Except.error _ => []

/-- Run a sequence of ticks, collecting each tick's events. -/
def runTicks (wol : Option (List String)) (oc : TransportOutcome) :
    MonitorState → List NutSample → MonitorState × List (List Event)
  | s, [] => (s, [])
  | s, x :: xs =>
      let r := runTicks wol oc (tickState wol oc s x) xs
      (r.1, tickEvents wol oc s x :: r.2)

/-- The rendered title with which every transition notification is sent. -/
def transitionTitles : List String :=
  ["Power outage!" ++ "\n" ++ "UPS Status Information",
   "Power restoration!" ++ "\n" ++ "UPS Status Information"]

/-- Is this event a transition (outage or restoration) notification? -/
def isTransitionNotif : Event → Bool
  | Event.notificationAttempt t _ _ => transitionTitles.contains t
  | Event.wolBroadcast _ => false

/-- Is this event a low-battery notification? -/
def isLowBatteryNotif : Event → Bool
  | Event.notificationAttempt t _ _ =>
      t == "Low battery!" ++ "\n" ++ "UPS Status Information"
  | Event.wolBroadcast _ => false

/-- Number of transition notifications in an event list. -/
def transitionCount (evs : List Event) : Nat :=
  evs.countP isTransitionNotif

/-- Number of low-battery notifications in an event list. -/
def lowBatteryCount (evs : List Event) : Nat :=
  evs.countP isLowBatteryNotif

/-- The per-tick flip indicators along a trace: whether each tick's fresh
on-battery flag differs from the held one. -/
def flipFlags : Bool → List NutSample → List Bool
  | _, [] => []
  | last, x :: xs => (x.onBattery != last) :: flipFlags x.onBattery xs

/-- Number of delivery attempts reported by a `send_notification` call
(0 if it were to raise). -/
def sendAttempts : Except String SendEffect → Nat
  | Except.ok eff => eff.attempts
  | Except.error _ => 0

/-- Monitor state after `handle_power_restoration` (unchanged if it were to
raise). -/
def restorationState (wol : Option (List String)) (oc : TransportOutcome)
    (s : MonitorState) (sample : NutSample) : MonitorState :=
  match UPSMonitor.handle_power_restoration wol oc s sample with
  | Except.ok r => r.1
  | Except.error _ => s

/-- Is this event specifically an outage notification? -/
def isOutageNotif : Event → Bool
  | Event.notificationAttempt t _ _ =>
      t == "Power outage!" ++ "\n" ++ "UPS Status Information"
  | Event.wolBroadcast _ => false

/-- Number of outage notifications in an event list. -/
def outageCount (evs : List Event) : Nat :=
  evs.countP isOutageNotif

/-- A concrete wake target list used in closed instances. -/
def macsA : List String := ["AA:BB:CC:DD:EE:FF"]

/-- Concrete reading: on battery, low-battery flag clear. -/
def sampleOutage : NutSample := ⟨true, false, 50, 20, "OB", 100⟩

/-- Concrete reading: on battery, low-battery flag set. -/
def sampleOutageLow : NutSample := ⟨true, true, 10, 20, "OB LB", 100⟩

/-- Concrete reading: off battery, 80% charge against a 20% threshold. -/
def sampleRestored : NutSample := ⟨false, false, 80, 20, "OL", 100⟩

/-- Concrete reading: off battery, 15% charge against a 20% threshold. -/
def sampleLowCharge : NutSample := ⟨false, false, 15, 20, "OL", 100⟩

/-- Concrete reading: on battery with a healthy 80% charge. -/
def sampleDuringOutage : NutSample := ⟨true, false, 80, 20, "OB", 100⟩

/-! ### Shared lemmas about one tick -/

lemma check_eq (wol : Option (List String)) (oc : TransportOutcome)
    (s : MonitorState) (sample : NutSample) :
    UPSMonitor.check_ups_status wol oc s sample =
      Except.ok (tickState wol oc s sample, tickEvents wol oc s sample) := by
  obtain ⟨b1, b2⟩ := s
  obtain ⟨ob, lb, bp, lt, st, pd⟩ := sample
  cases oc <;> cases b1 <;> cases b2 <;> cases ob <;> cases lb <;> rfl

lemma tickOk_true (wol : Option (List String)) (oc : TransportOutcome)
    (s : MonitorState) (sample : NutSample) :
    tickOk wol oc s sample = true := by
  obtain ⟨b1, b2⟩ := s
  obtain ⟨ob, lb, bp, lt, st, pd⟩ := sample
  cases oc <;> cases b1 <;> cases b2 <;> cases ob <;> cases lb <;> rfl

lemma tick_state_eq (wol : Option (List String)) (oc : TransportOutcome)
    (s : MonitorState) (sample : NutSample) :
    tickState wol oc s sample =
      ⟨sample.onBattery,
        if !s.last_ups_on_battery_status && sample.onBattery then
          sample.lowBattery
        else
          s.last_ups_low_battery_status⟩ := by
  obtain ⟨b1, b2⟩ := s
  obtain ⟨ob, lb, bp, lt, st, pd⟩ := sample
  cases oc <;> cases b1 <;> cases b2 <;> cases ob <;> cases lb <;> rfl

lemma tick_events_branch (wol : Option (List String)) (oc : TransportOutcome)
    (s : MonitorState) (sample : NutSample) :
    tickEvents wol oc s sample =
      if !s.last_ups_on_battery_status && sample.onBattery then
        outageEvents oc s sample
      else if s.last_ups_on_battery_status && !sample.onBattery then
        restorationEvents wol oc s sample
      else
        [] := by
  obtain ⟨b1, b2⟩ := s
  obtain ⟨ob, lb, bp, lt, st, pd⟩ := sample
  cases oc <;> cases b1 <;> cases b2 <;> cases ob <;> cases lb <;> rfl

lemma transitionCount_wol (wol : Option (List String)) (sample : NutSample) :
    transitionCount (UPSMonitor.send_wol_magic_packet wol sample) = 0 := by
  unfold UPSMonitor.send_wol_magic_packet
  split
  · rfl
  · cases wol with
    | none => rfl
    | some macs =>
        unfold WakeOnLAN.send_wol_magic_packet
        by_cases h : macs.isEmpty <;> simp [h, transitionCount, isTransitionNotif]

lemma lowBatteryCount_wol (wol : Option (List String)) (sample : NutSample) :
    lowBatteryCount (UPSMonitor.send_wol_magic_packet wol sample) = 0 := by
  unfold UPSMonitor.send_wol_magic_packet
  split
  · rfl
  · cases wol with
    | none => rfl
    | some macs =>
        unfold WakeOnLAN.send_wol_magic_packet
        by_cases h : macs.isEmpty <;> simp [h, lowBatteryCount, isLowBatteryNotif]

lemma transitionCount_outage (oc : TransportOutcome) (s : MonitorState)
    (sample : NutSample) : transitionCount (outageEvents oc s sample) = 1 := by
  obtain ⟨b1, b2⟩ := s
  obtain ⟨ob, lb, bp, lt, st, pd⟩ := sample
  cases oc <;> cases b2 <;> cases lb <;> rfl

lemma transitionCount_restoration (wol : Option (List String))
    (oc : TransportOutcome) (s : MonitorState) (sample : NutSample) :
    transitionCount (restorationEvents wol oc s sample) = 1 := by
  have hw := transitionCount_wol wol sample
  cases oc <;>
  · show transitionCount
      (Event.notificationAttempt _ _ _ :: UPSMonitor.send_wol_magic_packet wol sample) = 1
    simp only [transitionCount, List.countP_cons] at hw ⊢
    rw [hw]
    rfl

lemma tick_transitionCount (wol : Option (List String)) (oc : TransportOutcome)
    (s : MonitorState) (sample : NutSample) :
    transitionCount (tickEvents wol oc s sample) =
      if sample.onBattery == s.last_ups_on_battery_status then 0 else 1 := by
  rw [tick_events_branch]
  rcases hb : s.last_ups_on_battery_status <;> rcases ho : sample.onBattery
  · simp [transitionCount]
  · simpa using transitionCount_outage oc s sample
  · simpa using transitionCount_restoration wol oc s sample
  · simp [transitionCount]

lemma lowBatteryCount_outage (oc : TransportOutcome) (s : MonitorState)
    (sample : NutSample) :
    lowBatteryCount (outageEvents oc s sample) =
      if sample.lowBattery && !s.last_ups_low_battery_status then 1 else 0 := by
  obtain ⟨b1, b2⟩ := s
  obtain ⟨ob, lb, bp, lt, st, pd⟩ := sample
  cases oc <;> cases b2 <;> cases lb <;> rfl

lemma lowBatteryCount_restoration (wol : Option (List String))
    (oc : TransportOutcome) (s : MonitorState) (sample : NutSample) :
    lowBatteryCount (restorationEvents wol oc s sample) = 0 := by
  have hw := lowBatteryCount_wol wol sample
  cases oc <;>
  · show lowBatteryCount
      (Event.notificationAttempt _ _ _ :: UPSMonitor.send_wol_magic_packet wol sample) = 0
    simp only [lowBatteryCount, List.countP_cons] at hw ⊢
    rw [hw]
    rfl

lemma tick_lowBatteryCount (wol : Option (List String)) (oc : TransportOutcome)
    (s : MonitorState) (sample : NutSample) :
    lowBatteryCount (tickEvents wol oc s sample) =
      if !s.last_ups_on_battery_status && sample.onBattery && sample.lowBattery
          && !s.last_ups_low_battery_status then 1 else 0 := by
  rw [tick_events_branch]
  rcases hb : s.last_ups_on_battery_status <;> rcases ho : sample.onBattery
  · simp [lowBatteryCount]
  · simpa using lowBatteryCount_outage oc s sample
  · simpa using lowBatteryCount_restoration wol oc s sample
  · simp [lowBatteryCount]

lemma tick_lastOn (wol : Option (List String)) (oc : TransportOutcome)
    (s : MonitorState) (sample : NutSample) :
    (tickState wol oc s sample).last_ups_on_battery_status =
      sample.onBattery := by
  rw [tick_state_eq]

/-! ### Shared lemmas about tick sequences -/

lemma runTicks_cons (wol : Option (List String)) (oc : TransportOutcome)
    (s : MonitorState) (x : NutSample) (xs : List NutSample) :
    (runTicks wol oc s (x :: xs)).2 =
      tickEvents wol oc s x ::
        (runTicks wol oc (tickState wol oc s x) xs).2 := rfl

lemma runTicks_counts (wol : Option (List String)) (oc : TransportOutcome) :
    ∀ (samples : List NutSample) (s : MonitorState),
      ((runTicks wol oc s samples).2.map transitionCount) =
        (flipFlags s.last_ups_on_battery_status samples).map
          (fun b => if b then 1 else 0) := by
  intro samples
  induction samples with
  | nil => intro s; rfl
  | cons x xs ih =>
      intro s
      rw [runTicks_cons, List.map_cons, tick_transitionCount, ih, tick_lastOn]
      simp only [flipFlags, List.map_cons]
      congr 1
      rcases hx : x.onBattery <;> rcases hb : s.last_ups_on_battery_status <;> rfl

lemma runTicks_steady (wol : Option (List String)) (oc : TransportOutcome) :
    ∀ (rest : List NutSample) (s : MonitorState),
      s.last_ups_on_battery_status = true →
      (∀ y ∈ rest, y.onBattery = true) →
      (runTicks wol oc s rest).2 = List.replicate rest.length [] := by
  intro rest
  induction rest with
  | nil => intro s _ _; rfl
  | cons x xs ih =>
      intro s hs hall
      have hx : x.onBattery = true := hall x (by simp)
      have h1 : tickEvents wol oc s x = [] := by
        rw [tick_events_branch, hs, hx]
        rfl
      have h2 : (tickState wol oc s x).last_ups_on_battery_status = true := by
        rw [tick_lastOn]
        exact hx
      rw [runTicks_cons, h1,
        ih (tickState wol oc s x) h2 (fun y hy => hall y (List.mem_cons_of_mem _ hy))]
      rfl

lemma wol_gate_iff (macs : Option (List String)) (sample : NutSample) :
    UPSMonitor.send_wol_magic_packet (UPSMonitor.mk_wol macs) sample ≠ [] ↔
      ((UPSMonitor.mk_wol macs).isSome = true ∧ sample.onBattery = false ∧
        sample.lowThreshold < sample.batteryPerc) := by
  rcases macs with _ | l
  · simp [UPSMonitor.mk_wol, UPSMonitor.send_wol_magic_packet]
  · by_cases h : l.isEmpty
    · simp [UPSMonitor.mk_wol, h, UPSMonitor.send_wol_magic_packet]
    · have hmk : UPSMonitor.mk_wol (some l) = some l := by
        simp [UPSMonitor.mk_wol, h]
      rw [hmk]
      unfold UPSMonitor.send_wol_magic_packet
      rcases ho : sample.onBattery
      · by_cases hc : sample.batteryPerc ≤ sample.lowThreshold
        · simp [hc]
        · simp [hc, WakeOnLAN.send_wol_magic_packet, h]
          omega
      · simp [ho]

/-! ### Claim theorems -/

/-- C1: on every tick of `check_ups_status`, the outage handler runs exactly
when the held flag is false and the fresh on-battery flag is true, the
restoration handler runs exactly when the held flag is true and the fresh
flag is false, neither runs when the flags are equal, the tick returns
normally, and `last_ups_on_battery_status` is set to the freshly read value
at the end of the tick. -/
theorem C1_tick_dispatch (wol : Option (List String)) (oc : TransportOutcome)
    (s : MonitorState) (sample : NutSample) :
    tickOk wol oc s sample = true ∧
    (tickState wol oc s sample).last_ups_on_battery_status =
      sample.onBattery ∧
    tickEvents wol oc s sample =
      (if !s.last_ups_on_battery_status && sample.onBattery then
        outageEvents oc s sample
      else if s.last_ups_on_battery_status && !sample.onBattery then
        restorationEvents wol oc s sample
      else
        []) :=
  ⟨tickOk_true wol oc s sample, tick_lastOn wol oc s sample,
    tick_events_branch wol oc s sample⟩

/-- C2: starting from `{lastOnBattery := false, lastLowBattery := false}`,
each tick of a trace emits exactly one transition notification when the
fresh on-battery flag differs from the held one and none otherwise; in
particular two consecutive on-battery ticks from mains send exactly one
outage notification. -/
theorem C2_transition_debounce :
    (∀ (wol : Option (List String)) (oc : TransportOutcome)
        (samples : List NutSample),
      ((runTicks wol oc ⟨false, false⟩ samples).2.map transitionCount) =
        (flipFlags false samples).map (fun b => if b then 1 else 0)) ∧
    ((runTicks none TransportOutcome.delivered ⟨false, false⟩
        [sampleOutage, sampleOutage]).2.map outageCount = [1, 0]) := by
  refine ⟨fun wol oc samples => runTicks_counts wol oc samples ⟨false, false⟩, ?_⟩
  rfl

/-- C3 (counterexample): an on-battery episode entered with the low-battery
flag clear, whose low flag then goes false→true→false on later ticks of the
same episode, sends zero low-battery notifications — not the one on the
mid-episode false→true edge that the claim requires. -/
theorem C3_counterexample :
    [sampleOutage.onBattery, sampleOutageLow.onBattery,
        sampleOutage.onBattery] = [true, true, true] ∧
    [sampleOutage.lowBattery, sampleOutageLow.lowBattery,
        sampleOutage.lowBattery] = [false, true, false] ∧
    ((runTicks none TransportOutcome.delivered ⟨false, false⟩
        [sampleOutage, sampleOutageLow, sampleOutage]).2.map lowBatteryCount)
      = [0, 0, 0] :=
  ⟨rfl, rfl, rfl⟩

/-- C3 (amended): the low-battery flag is examined only on the first tick
of an on-battery episode (the outage-transition tick).  That tick sends one
low-battery notification iff the fresh low flag is true and the held
`last_ups_low_battery_status` is false; every later tick of the episode
emits no low-battery notification regardless of the flag. -/
theorem C3_low_battery_episode (wol : Option (List String))
    (oc : TransportOutcome) (s : MonitorState) (x : NutSample)
    (rest : List NutSample)
    (h1 : s.last_ups_on_battery_status = false)
    (h2 : x.onBattery = true)
    (h3 : ∀ y ∈ rest, y.onBattery = true) :
    ((runTicks wol oc s (x :: rest)).2.map lowBatteryCount) =
      (if x.lowBattery && !s.last_ups_low_battery_status then 1 else 0) ::
        List.replicate rest.length 0 := by
  have hhead : lowBatteryCount (tickEvents wol oc s x) =
      if x.lowBattery && !s.last_ups_low_battery_status then 1 else 0 := by
    rw [tick_lowBatteryCount, h1, h2]
    simp
  have hstate : (tickState wol oc s x).last_ups_on_battery_status = true := by
    rw [tick_lastOn]
    exact h2
  rw [runTicks_cons, List.map_cons, hhead,
    runTicks_steady wol oc rest (tickState wol oc s x) hstate h3,
    List.map_replicate]
  rfl

/-- C3 (witness for the amended theorem): a two-tick episode whose first
tick reads a set low flag sends exactly one low-battery notification and a
second on-battery tick sends none. -/
theorem C3_low_battery_episode_witness :
    ((runTicks none TransportOutcome.delivered ⟨false, false⟩
        (sampleOutageLow :: [sampleOutage])).2.map lowBatteryCount) =
      1 :: List.replicate 1 0 :=
  C3_low_battery_episode none TransportOutcome.delivered ⟨false, false⟩
    sampleOutageLow [sampleOutage] rfl rfl (by decide)

/-- C4: the gated wake broadcast fires iff the wake client is configured,
the UPS reports off-battery, and the battery percentage is strictly above
the low threshold; concretely it fires at 80% against a 20% threshold
off-battery and not at 15% against a 20% threshold. -/
theorem C4_wake_gating :
    (∀ (macs : Option (List String)) (sample : NutSample),
      (UPSMonitor.send_wol_magic_packet (UPSMonitor.mk_wol macs) sample ≠ []
        ↔ ((UPSMonitor.mk_wol macs).isSome = true ∧
            sample.onBattery = false ∧
            sample.lowThreshold < sample.batteryPerc))) ∧
    UPSMonitor.send_wol_magic_packet (UPSMonitor.mk_wol (some macsA))
        sampleRestored = [Event.wolBroadcast macsA] ∧
    UPSMonitor.send_wol_magic_packet (UPSMonitor.mk_wol (some macsA))
        sampleLowCharge = [] :=
  ⟨wol_gate_iff, rfl, rfl⟩

/-- C5: a tick in which every Telegram delivery attempt fails at the
transport level still returns normally, and yields exactly the monitor
state (both held flags) that a fully successful tick would. -/
theorem C5_transport_failure_tick (wol : Option (List String))
    (s : MonitorState) (sample : NutSample) (e : String) :
    tickOk wol (TransportOutcome.requestError e) s sample = true ∧
    tickState wol (TransportOutcome.requestError e) s sample =
      tickState wol TransportOutcome.delivered s sample := by
  refine ⟨tickOk_true wol (TransportOutcome.requestError e) s sample, ?_⟩
  rw [tick_state_eq, tick_state_eq]

/-- C6: `send_notification` never propagates an exception to its caller —
for every title, body and transport outcome it returns normally after
exactly one delivery attempt. -/
theorem C6_notify_never_throws (msg_title msg : String)
    (oc : TransportOutcome) :
    exceptOk (TelegramNotifier.send_notification msg_title msg oc) = true ∧
    sendAttempts (TelegramNotifier.send_notification msg_title msg oc) = 1 := by
  cases oc <;> exact ⟨rfl, rfl⟩

/-- C7: `last_ups_low_battery_status` is set to the freshly read low flag on
an outage tick (whether or not a low-battery notification fired) and is
left unchanged on every other tick; the restoration handler leaves the
whole monitor state untouched. -/
theorem C7_lastLowBattery_frame (wol : Option (List String))
    (oc : TransportOutcome) (s : MonitorState) (sample : NutSample) :
    (tickState wol oc s sample).last_ups_low_battery_status =
      (if !s.last_ups_on_battery_status && sample.onBattery then
        sample.lowBattery
      else
        s.last_ups_low_battery_status) ∧
    restorationState wol oc s sample = s := by
  constructor
  · rw [tick_state_eq]
  · cases oc <;> rfl

/-- C8 (counterexample): with a positive auto-wake interval the periodic
wake job is registered, yet a periodic firing with configured wake targets
performs no broadcast while the UPS is on battery — the registered action
is the gated `send_wol_magic_packet`, not an unconditional broadcast. -/
theorem C8_counterexample :
    (UPSMonitor.monitor_ups_schedule 5).contains
        (Job.mk 5 TimeUnit.minutes JobAction.autoWake) = true ∧
    runJobAction (UPSMonitor.mk_wol (some macsA)) TransportOutcome.delivered
        ⟨true, false⟩ sampleDuringOutage JobAction.autoWake =
      Except.ok (⟨true, false⟩, []) :=
  ⟨rfl, rfl⟩

/-- C8 (amended): the periodic wake job is registered iff the configured
auto-wake interval is strictly positive, and each periodic firing runs the
gated `send_wol_magic_packet`, which broadcasts iff the wake client is
configured, the UPS reports off-battery, and the battery percentage is
strictly above the low threshold. -/
theorem C8_schedule_wake :
    (∀ i : Int,
      ((UPSMonitor.monitor_ups_schedule i).any
          (fun j => j.action == JobAction.autoWake) = true ↔ 0 < i)) ∧
    (∀ (wol : Option (List String)) (oc : TransportOutcome)
        (s : MonitorState) (sample : NutSample),
      runJobAction wol oc s sample JobAction.autoWake =
        Except.ok (s, UPSMonitor.send_wol_magic_packet wol sample)) ∧
    (∀ (macs : Option (List String)) (sample : NutSample),
      (UPSMonitor.send_wol_magic_packet (UPSMonitor.mk_wol macs) sample ≠ []
        ↔ ((UPSMonitor.mk_wol macs).isSome = true ∧
            sample.onBattery = false ∧
            sample.lowThreshold < sample.batteryPerc))) := by
  refine ⟨?_, fun wol oc s sample => rfl, wol_gate_iff⟩
  intro i
  by_cases h : (0 : Int) < i <;>
    simp [UPSMonitor.monitor_ups_schedule, h]

/-- C9: `WakeOnLAN.send_wol_magic_packet` returns false with no broadcast
when the stored target list is `None` or empty, and for every non-empty
list it performs exactly one broadcast addressed to all targets and returns
true. -/
theorem C9_wol_broadcast :
    WakeOnLAN.send_wol_magic_packet none = (false, []) ∧
    WakeOnLAN.send_wol_magic_packet (some []) = (false, []) ∧
    ∀ (a : String) (l : List String),
      WakeOnLAN.send_wol_magic_packet (some (a :: l)) = (true, [a :: l]) :=
  ⟨rfl, rfl, fun _ _ => rfl⟩

/-- C10: `reply_ups_status` replies iff the chat type is channel, the chat
id (as a string) equals the configured chat id, and the text is exactly
"/ups"; a matching message from a group chat gets no reply. -/
theorem C10_ups_command_filter :
    (∀ (chat_id : String) (sample : NutSample) (u : TgUpdate),
      ((TelegramNotifier.reply_ups_status chat_id sample u).isSome = true ↔
        (u.chatType = ChatType.channel ∧ toString u.chatId = chat_id ∧
          u.text = "/ups"))) ∧
    TelegramNotifier.reply_ups_status "42" sampleRestored
      ⟨ChatType.group, 42, "/ups"⟩ = none := by
  constructor
  · intro chat_id sample u
    unfold TelegramNotifier.reply_ups_status
    split_ifs with h
    · simp only [Option.isSome_none, Bool.false_eq_true, false_iff]
      intro hc
      rcases h with h | h | h <;> exact h (by tauto)
    · push_neg at h
      simp [h]
  · rfl

end TeleUPS
